import Mathlib

/-
Verification of the scheduling layer of rxRust (src/src/scheduler.rs).

The embedding models:
 - the shared cancellation state of a subscription token and its clones
   (SharedSubscription and LocalSubscription are reference-counted shared
   cells in the library; a clone shares the underlying state, which we model
   with a store indexed by token ids);
 - task_future, which builds a fresh token and a cancellation-guarded,
   optionally delayed deferred computation;
 - the default schedule implementations of SharedScheduler and
   LocalScheduler, which compose task_future with spawn;
 - SpawnHandle, the leaf token wrapping a backend AbortHandle;
 - the backend adapters ThreadPool::spawn, LocalSpawner::spawn and rt_spawn,
   including the .unwrap() on the submission result and the order in which
   they submit the future and register the abort capability.
-/

namespace RxSched

/-- Store of the shared cancellation state behind subscription tokens.
nextId is the next fresh token id; closed lists the ids whose shared
closed flag has been set. -/
structure Store where
  nextId : Nat
  closed : List Nat
deriving DecidableEq, Repr

/-- Token is a handle onto shared cancellation state: cloning a
subscription copies the handle, so clones share one underlying flag. -/
structure Token where
  id : Nat
deriving DecidableEq, Repr

/-- Store.newToken models U::default() for SharedSubscription or
LocalSubscription: a fresh subscription with fresh shared state, open. -/
def Store.newToken (σ : Store) : Token × Store :=
  ({ id := σ.nextId }, { σ with nextId := σ.nextId + 1 })

/-- Token.clone models Clone on the subscription: the clone shares the
underlying cancellation state, so it carries the same id. -/
def Token.clone (t : Token) : Token :=
  { id := t.id }

/-- Store.isClosed models is_closed() on a subscription: it reads the
shared closed flag of the underlying state. -/
def Store.isClosed (σ : Store) (t : Token) : Bool :=
  σ.closed.contains t.id

/-- Store.unsubscribe models unsubscribe() on a subscription: it sets the
shared closed flag of the underlying state. -/
def Store.unsubscribe (σ : Store) (t : Token) : Store :=
  { σ with closed := t.id :: σ.closed }

/-- Deferred is the future built by task_future: the lazy closure captures
c_subscription (the clone of the returned token) and the owned state, and
the whole future is wrapped in a delay of delay.unwrap_or_default(). -/
structure Deferred (T : Type) where
  guardToken : Token
  state : T
  delay : Nat
deriving DecidableEq, Repr

/-- task_future from scheduler.rs: create subscription = U::default(),
c_subscription = subscription.clone(), build the lazy future that checks
c_subscription.is_closed() and otherwise calls task(c_subscription, state),
wrap it in .delay(delay.unwrap_or_default()) and return
(subscription, fut). The task body itself is left abstract: running the
deferred computation yields the list of body invocations performed, each
with its two arguments. -/
def task_future {T : Type} (state : T) (delay : Option Nat) (σ : Store) :
    (Token × Deferred T) × Store :=
  let a := σ.newToken
  let subscription := a.1
  let c_subscription := subscription.clone
  ((subscription,
    { guardToken := c_subscription, state := state, delay := delay.getD 0 }),
   a.2)

/-- Deferred.run models the backend driving the future to completion past
its delay, with σ the shared cancellation state at the instant the lazy
closure is polled: if the guard token is closed the body is skipped,
otherwise the body is invoked once with (token, state). The result lists
the body invocations performed, in order. -/
def Deferred.run {T : Type} (d : Deferred T) (σ : Store) : List (Token × T) :=
  if σ.isClosed d.guardToken then [] else [(d.guardToken, d.state)]

/-- closedAt events id t holds when some unsubscribe event (time, id) in
events has happened at or before time t; the closed flag is one-way, so a
token is closed at t exactly when some unsubscribe on it occurred by t. -/
def closedAt (events : List (Nat × Nat)) (id t : Nat) : Bool :=
  events.any (fun e => e.2 == id && decide (e.1 ≤ t))

/-- Deferred.runTimed models the timed behavior of the future built by
task_future: the backend starts driving it at t0, the .delay wrapper waits
the delay, and only then is the lazy closure polled, evaluating the
is_closed guard at time t0 + delay. The result is the body invocation,
tagged with its start time, or none when the guard observed closed. -/
def Deferred.runTimed {T : Type} (d : Deferred T) (t0 : Nat)
    (events : List (Nat × Nat)) : Option (Nat × Token × T) :=
  let tPoll := t0 + d.delay
  if closedAt events d.guardToken.id tPoll then none
  else some (tPoll, d.guardToken, d.state)

/-- SharedScheduler.schedule, the default method body from scheduler.rs:
let (mut subscription, fut) = task_future(task, state, delay);
self.spawn(fut, subscription); return subscription. The backend spawn is
abstracted as a store transformer receiving the future and the token. -/
def SharedScheduler.schedule {T : Type}
    (spawnF : Deferred T → Token → Store → Store)
    (state : T) (delay : Option Nat) (σ : Store) : Token × Store :=
  let b := task_future state delay σ
  let subscription := b.1.1
  let fut := b.1.2
  let σ2 := spawnF fut subscription b.2
  (subscription, σ2)

/-- LocalScheduler.schedule, the default method body from scheduler.rs:
let (mut subscription, fut) = task_future(task, state, delay);
self.spawn(fut, subscription); return subscription. Textually the same
composition as the Shared variant; in Rust the two differ only in the
Send bounds on their generic parameters. -/
def LocalScheduler.schedule {T : Type}
    (spawnF : Deferred T → Token → Store → Store)
    (state : T) (delay : Option Nat) (σ : Store) : Token × Store :=
  let b := task_future state delay σ
  let subscription := b.1.1
  let fut := b.1.2
  let σ2 := spawnF fut subscription b.2
  (subscription, σ2)

/-- AbortHandle models futures::future::AbortHandle: abort() sets a
one-way aborted flag on the associated future. -/
structure AbortHandle where
  aborted : Bool
deriving DecidableEq, Repr

/-- AbortHandle.abort sets the aborted flag; calling it again leaves the
flag set. -/
def AbortHandle.abort (_h : AbortHandle) : AbortHandle :=
  { aborted := true }

/-- SpawnHandle from scheduler.rs: a leaf token wrapping one backend
AbortHandle plus a closed flag. Reading the closed flag (the is_closed()
method of SubscriptionLike) is the field access s.is_closed. -/
structure SpawnHandle where
  handle : AbortHandle
  is_closed : Bool
deriving DecidableEq, Repr

/-- SpawnHandle.new from scheduler.rs: wraps a backend abort handle with
the closed flag initially false. -/
def SpawnHandle.new (handle : AbortHandle) : SpawnHandle :=
  { handle := handle, is_closed := false }

/-- SpawnHandle.unsubscribe from the SubscriptionLike impl: sets the
closed flag to true and calls handle.abort(). -/
def SpawnHandle.unsubscribe (s : SpawnHandle) : SpawnHandle :=
  { handle := s.handle.abort, is_closed := true }

/-- Located places a value at a memory address, modelling where a struct
lives; mutation through exclusive borrows updates the value in place and
never moves the struct. -/
structure Located (α : Type) where
  addr : Nat
  val : α
deriving DecidableEq, Repr

/-- handleFieldOffset is the fixed offset of the handle field inside the
SpawnHandle struct layout; the concrete value is layout-defined and none
of the proved properties depend on it. -/
def handleFieldOffset : Nat := 0

/-- inner_addr from the SubscriptionLike impl of SpawnHandle: the address
of the handle field, a stable pointer-based identity. -/
def inner_addr (s : Located SpawnHandle) : Nat :=
  s.addr + handleFieldOffset

/-- unsubscribeAt models calling unsubscribe() through an exclusive borrow
of a placed SpawnHandle: the fields are updated in place, the address is
untouched. -/
def unsubscribeAt (s : Located SpawnHandle) : Located SpawnHandle :=
  { s with val := s.val.unsubscribe }

/-- SpawnEvent records the externally visible steps a backend adapter
performs inside spawn, in order: submitting the future to the backend, and
registering the SpawnHandle into the caller-supplied subscription. -/
inductive SpawnEvent where
  | submit
  | register
deriving DecidableEq, Repr

/-- POutcome is the outcome of running code that may panic: .unwrap() on
an Err submission result aborts instead of returning. -/
inductive POutcome (α : Type) where
  | ok (a : α)
  | panicked
deriving DecidableEq, Repr

/-- Modelled from the spec: SharedSubscription (defined in subscription.rs,
outside the given source) is the composite aggregate into which spawn
registers the leaf SpawnHandle; add appends the leaf. -/
structure SharedSubscription where
  handles : List SpawnHandle
deriving DecidableEq, Repr

/-- SharedSubscription.add registers a leaf token into the aggregate. -/
def SharedSubscription.add (s : SharedSubscription) (h : SpawnHandle) :
    SharedSubscription :=
  { handles := s.handles ++ [h] }

/-- Modelled from the spec: LocalSubscription (defined in subscription.rs,
outside the given source) is the single-threaded aggregate into which
spawn registers the leaf SpawnHandle; add appends the leaf. -/
structure LocalSubscription where
  handles : List SpawnHandle
deriving DecidableEq, Repr

/-- LocalSubscription.add registers a leaf token into the aggregate. -/
def LocalSubscription.add (s : LocalSubscription) (h : SpawnHandle) :
    LocalSubscription :=
  { handles := s.handles ++ [h] }

/-- ThreadPool.spawn, the SharedScheduler impl for futures ThreadPool:
let (f, handle) = abortable(future); SpawnExt::spawn(self, f).unwrap();
subscription.add(SpawnHandle::new(handle)). submitOk tells whether the
backend accepted the work; handle is the abort capability produced by
abortable. The second component is the trace of steps performed before
returning, in order. -/
def ThreadPool.spawn (submitOk : Bool) (handle : AbortHandle)
    (subscription : SharedSubscription) :
    POutcome SharedSubscription × List SpawnEvent :=
  if submitOk then
    (POutcome.ok (subscription.add (SpawnHandle.new handle)),
     [SpawnEvent.submit, SpawnEvent.register])
  else
    (POutcome.panicked, [SpawnEvent.submit])

/-- LocalSpawner.spawn, the LocalScheduler impl for futures LocalSpawner:
let (f, handle) = abortable(future); self.spawn_local(f).unwrap();
subscription.add(SpawnHandle::new(handle)). Same shape as the ThreadPool
impl, submit first, register second, panic on Err. -/
def LocalSpawner.spawn (submitOk : Bool) (handle : AbortHandle)
    (subscription : LocalSubscription) :
    POutcome LocalSubscription × List SpawnEvent :=
  if submitOk then
    (POutcome.ok (subscription.add (SpawnHandle.new handle)),
     [SpawnEvent.submit, SpawnEvent.register])
  else
    (POutcome.panicked, [SpawnEvent.submit])

/-- rt_spawn from the tokio scheduler module:
let (f, handle) = abortable(future);
subscription.add(SpawnHandle::new(handle)); rt.spawn(f). Registration
happens before submission; tokio Runtime::spawn returns no submission
result. Both SharedScheduler impls for Runtime and Arc Runtime delegate
here. -/
def rt_spawn (handle : AbortHandle) (subscription : SharedSubscription) :
    SharedSubscription × List SpawnEvent :=
  (subscription.add (SpawnHandle.new handle),
   [SpawnEvent.register, SpawnEvent.submit])

/-- C1: for every task built by task_future, if the shared cancellation
state at the instant the backend polls the lazy closure marks the returned
token closed, the body is never invoked: the deferred computation checks
is_closed() right before the body and skips it, so the invocation list is
empty. -/
theorem task_future_skips_body_when_closed {T : Type} (state : T)
    (delay : Option Nat) (σ σr : Store)
    (h : σr.isClosed ((task_future state delay σ).1).1 = true) :
    (((task_future state delay σ).1).2).run σr = [] := by
  simp only [task_future, Store.newToken, Token.clone] at h ⊢
  simp only [Deferred.run, h, if_true]

theorem task_future_skips_body_when_closed_witness :
    (Store.isClosed ⟨1, [0]⟩ ((task_future (5 : Nat) none ⟨0, []⟩).1).1
        = true) ∧
    (((task_future (5 : Nat) none ⟨0, []⟩).1).2).run ⟨1, [0]⟩ = [] :=
  ⟨by decide,
   task_future_skips_body_when_closed 5 none ⟨0, []⟩ ⟨1, [0]⟩ (by decide)⟩

/-- C2: evaluating the futures adapters at a failed backend submission:
both ThreadPool::spawn and LocalSpawner::spawn call .unwrap() on the
submission result, so on failure they panic (process-fatal) instead of
surfacing a recoverable result to the caller. -/
theorem spawn_panics_on_submission_failure :
    (ThreadPool.spawn false { aborted := false } { handles := [] }).1
        = POutcome.panicked ∧
    (LocalSpawner.spawn false { aborted := false } { handles := [] }).1
        = POutcome.panicked :=
  ⟨rfl, rfl⟩

/-- C3: unsubscribe on a SpawnHandle is idempotent: calling it twice
equals calling it once, and the result is always closed; since
unsubscribe is the only state-changing operation (is_closed and
inner_addr are pure reads) and its result is closed, no operation ever
returns the token from Closed to Open, and a fresh token starts open. -/
theorem unsubscribe_idempotent_one_way (s : SpawnHandle) :
    s.unsubscribe.unsubscribe = s.unsubscribe ∧
    s.unsubscribe.is_closed = true ∧
    (SpawnHandle.new s.handle).is_closed = false :=
  ⟨rfl, rfl, rfl⟩

/-- C4: for every task built by task_future whose token is not closed at
the instant the backend polls the lazy closure, the body is invoked
exactly once with the token and the owned state as its two arguments, and
one drive of the deferred computation never produces more than one
invocation. -/
theorem task_future_body_exactly_once {T : Type} (state : T)
    (delay : Option Nat) (σ σr : Store)
    (h : σr.isClosed ((task_future state delay σ).1).1 = false) :
    (((task_future state delay σ).1).2).run σr
        = [(((task_future state delay σ).1).1, state)] ∧
    ∀ σx : Store, ((((task_future state delay σ).1).2).run σx).length ≤ 1 := by
  constructor
  · simp only [task_future, Store.newToken, Token.clone] at h ⊢
    simp only [Deferred.run, h, if_false, Bool.false_eq_true]
  · intro σx
    by_cases hc : σx.isClosed (((task_future state delay σ).1).2).guardToken
    · simp [Deferred.run, hc]
    · simp [Deferred.run, hc]

theorem task_future_body_exactly_once_witness :
    (Store.isClosed ⟨1, []⟩ ((task_future (5 : Nat) none ⟨0, []⟩).1).1
        = false) ∧
    (((task_future (5 : Nat) none ⟨0, []⟩).1).2).run ⟨1, []⟩
        = [(((task_future (5 : Nat) none ⟨0, []⟩).1).1, 5)] :=
  ⟨by decide,
   (task_future_body_exactly_once 5 none ⟨0, []⟩ ⟨1, []⟩ (by decide)).1⟩

/-- C5: for a task built with delay D, the body can only start at time
t0 + D after the backend begins driving at t0, so never before D elapses;
an absent delay means a zero wait; and the is_closed guard is evaluated at
time t0 + D, after the wait, so any unsubscribe that happened at or before
t0 + D prevents the body from running. -/
theorem task_future_delay_guard_after_wait {T : Type} (state : T)
    (D : Nat) (σ : Store) (t0 : Nat) (events : List (Nat × Nat)) :
    (∀ (t : Nat) (tok : Token) (st : T),
        (((task_future state (some D) σ).1).2).runTimed t0 events
            = some (t, tok, st) →
        t = t0 + D ∧ D ≤ t) ∧
    ((((task_future state none σ).1).2).delay = 0) ∧
    (∀ tu : Nat, (tu, (((task_future state (some D) σ).1).1).id) ∈ events →
        tu ≤ t0 + D →
        (((task_future state (some D) σ).1).2).runTimed t0 events = none) := by
  refine ⟨?_, rfl, ?_⟩
  · intro t tok st hsome
    simp only [task_future, Store.newToken, Token.clone, Deferred.runTimed,
      Option.getD] at hsome
    split at hsome
    · exact absurd hsome (by simp)
    · have ht : t = t0 + D := by
        have := congrArg (fun o => o.map Prod.fst) hsome
        simpa using this.symm
      exact ⟨ht, by omega⟩
  · intro tu hmem htu
    simp only [task_future, Store.newToken, Token.clone, Deferred.runTimed,
      Option.getD]
    have hcl : closedAt events σ.nextId (t0 + D) = true := by
      unfold closedAt
      rw [List.any_eq_true]
      exact ⟨(tu, σ.nextId), hmem, by simp [htu]⟩
    simp [hcl]

theorem task_future_delay_guard_after_wait_witness :
    (((2, 0) : Nat × Nat)
        ∈ ([((2, 0) : Nat × Nat)] : List (Nat × Nat))) ∧
    (((task_future (7 : Nat) (some 5) ⟨0, []⟩).1).2).runTimed 3 [(2, 0)]
        = none :=
  ⟨by decide,
   (task_future_delay_guard_after_wait 7 5 ⟨0, []⟩ 3 [(2, 0)]).2.2 2
     (by decide) (by decide)⟩

/-- C6: for every backend adapter, whenever spawn returns normally the
SpawnHandle wrapping the backend abort capability has been added to the
caller-supplied subscription before the return, and the registration step
appears in the trace of steps performed before returning; the futures
adapters submit first and register second (race window between submission
and registration), the tokio adapter registers first and submits second. -/
theorem spawn_registers_capability_before_return (handle : AbortHandle)
    (subS : SharedSubscription) (subL : LocalSubscription) :
    ((ThreadPool.spawn true handle subS).1
        = POutcome.ok (subS.add (SpawnHandle.new handle)) ∧
      SpawnEvent.register ∈ (ThreadPool.spawn true handle subS).2) ∧
    ((LocalSpawner.spawn true handle subL).1
        = POutcome.ok (subL.add (SpawnHandle.new handle)) ∧
      SpawnEvent.register ∈ (LocalSpawner.spawn true handle subL).2) ∧
    ((rt_spawn handle subS).1 = subS.add (SpawnHandle.new handle) ∧
      SpawnEvent.register ∈ (rt_spawn handle subS).2) ∧
    SpawnHandle.new handle ∈ (subS.add (SpawnHandle.new handle)).handles ∧
    SpawnHandle.new handle ∈ (subL.add (SpawnHandle.new handle)).handles := by
  refine ⟨⟨rfl, ?_⟩, ⟨rfl, ?_⟩, ⟨rfl, ?_⟩, ?_, ?_⟩ <;>
    simp [ThreadPool.spawn, LocalSpawner.spawn, rt_spawn,
      SharedSubscription.add, LocalSubscription.add]

/-- C7: the default schedule bodies of the Shared and Local scheduler
variants are the same composition, agreeing on every input: build
(token, deferred) with task_future, pass the deferred computation and the
token to spawn, return the token synchronously; the returned token is the
freshly allocated one (its id is the nextId of the pre-call store), and as
long as spawn does not allocate tokens, two successive schedule calls
return distinct tokens. -/
theorem schedule_variants_same_composition_fresh_token {T : Type}
    (spawnF : Deferred T → Token → Store → Store)
    (state : T) (delay : Option Nat) (σ : Store) :
    SharedScheduler.schedule spawnF state delay σ
        = LocalScheduler.schedule spawnF state delay σ ∧
    (SharedScheduler.schedule spawnF state delay σ).1.id = σ.nextId ∧
    ((∀ (d : Deferred T) (t : Token) (σx : Store),
        (spawnF d t σx).nextId = σx.nextId) →
      ∀ (state2 : T) (delay2 : Option Nat),
        (SharedScheduler.schedule spawnF state2 delay2
            (SharedScheduler.schedule spawnF state delay σ).2).1
          ≠ (SharedScheduler.schedule spawnF state delay σ).1) := by
  refine ⟨rfl, rfl, ?_⟩
  intro hpres state2 delay2 heq
  have h2 := congrArg Token.id heq
  simp only [SharedScheduler.schedule, task_future, Store.newToken,
    Token.clone, hpres] at h2
  omega

theorem schedule_variants_same_composition_fresh_token_witness :
    (SharedScheduler.schedule (fun (_ : Deferred Nat) _ σx => σx) 1 none
        (SharedScheduler.schedule (fun (_ : Deferred Nat) _ σx => σx) 0 none
          ⟨0, []⟩).2).1
      ≠ (SharedScheduler.schedule (fun (_ : Deferred Nat) _ σx => σx) 0 none
          ⟨0, []⟩).1 :=
  (schedule_variants_same_composition_fresh_token
      (fun (_ : Deferred Nat) _ σx => σx) 0 none ⟨0, []⟩).2.2
    (fun _ _ _ => rfl) 1 none

/-- C8: inner_addr is a pointer-based identity: it is unchanged by
unsubscribe (which mutates the fields in place and never moves the
struct), and it is not content equality: two tokens with equal contents at
distinct addresses have distinct identities, so a composite aggregate can
add and remove this specific leaf by identity. -/
theorem inner_addr_identity_stable (s s2 : Located SpawnHandle) :
    inner_addr (unsubscribeAt s) = inner_addr s ∧
    (s.val = s2.val → s.addr ≠ s2.addr → inner_addr s ≠ inner_addr s2) := by
  refine ⟨rfl, ?_⟩
  intro _ hne heq
  simp only [inner_addr] at heq
  exact hne (Nat.add_right_cancel heq)

theorem inner_addr_identity_stable_witness :
    inner_addr ⟨1, SpawnHandle.new { aborted := false }⟩
      ≠ inner_addr ⟨2, SpawnHandle.new { aborted := false }⟩ :=
  (inner_addr_identity_stable ⟨1, SpawnHandle.new { aborted := false }⟩
      ⟨2, SpawnHandle.new { aborted := false }⟩).2 rfl (by decide)

/-- C10: the guard token captured inside the deferred computation is the
clone of the very token task_future returns, the two share one
cancellation state (is_closed agrees on every store, and unsubscribing the
returned token is observed by the guard), and any body invocation the
deferred computation performs receives that same clone together with the
owned state. -/
theorem guard_consults_clone_of_returned_token {T : Type} (state : T)
    (delay : Option Nat) (σ : Store) :
    (((task_future state delay σ).1).2).guardToken
        = (((task_future state delay σ).1).1).clone ∧
    (∀ σ2 : Store,
        σ2.isClosed (((task_future state delay σ).1).2).guardToken
          = σ2.isClosed ((task_future state delay σ).1).1) ∧
    (∀ σ2 : Store,
        (σ2.unsubscribe ((task_future state delay σ).1).1).isClosed
          (((task_future state delay σ).1).2).guardToken = true) ∧
    (∀ σ2 : Store,
        (((task_future state delay σ).1).2).run σ2 = [] ∨
        (((task_future state delay σ).1).2).run σ2
          = [((((task_future state delay σ).1).2).guardToken, state)]) := by
  refine ⟨rfl, fun σ2 => rfl, ?_, ?_⟩
  · intro σ2
    simp [task_future, Store.newToken, Token.clone, Store.unsubscribe,
      Store.isClosed]
  · intro σ2
    by_cases hc : σ2.isClosed (((task_future state delay σ).1).2).guardToken
    · exact Or.inl (by simp [Deferred.run, hc])
    · refine Or.inr ?_
      have hrun : (((task_future state delay σ).1).2).run σ2
          = [((((task_future state delay σ).1).2).guardToken,
              (((task_future state delay σ).1).2).state)] := by
        simp [Deferred.run, hc]
      exact hrun

end RxSched
